import Mathlib

/-!
Shallow embedding of the identity / quota / subscription subsystem of
`src/app.py` (Flask + SQLite).  The SQLite tables become Lean lists:
`users` is the `users` table and `usage` is the `usage` table (one row
per `(actor_type, actor_id)` primary key).  Each Python helper around
those tables is translated one-for-one into a pure Lean function that
threads the database state explicitly.
-/

/-- One row of the `users` table (see `db_init`, lines 116-128 of
`src/app.py`).  `plan` is the TEXT column holding `"free"` or `"pro"`;
the two Stripe columns are nullable, hence `Option String`. -/
structure User where
  id : String
  email : String
  name : String
  picture : String
  plan : String
  stripe_customer_id : Option String
  stripe_subscription_id : Option String
deriving Repr, DecidableEq

/-- The durable state: the `users` table and the `usage` table.  A usage
row is keyed by `(actor_type, actor_id)` (the PRIMARY KEY) and stores the
`used` counter; `updated_at` is a timestamp irrelevant to every claim and
is elided. -/
structure DB where
  users : List User
  usage : List ((String × String) × Nat)
deriving Repr, DecidableEq

/-- `SELECT used FROM usage WHERE actor_type=? AND actor_id=?` followed by
`fetchone` (first matching row or none). -/
def usageLookup (db : DB) (aty aid : String) : Option Nat :=
  (db.usage.find? (fun e => decide (e.1 = (aty, aid)))).map (fun e => e.2)

/-- `UPDATE usage SET used=? WHERE actor_type=? AND actor_id=?`: rewrite
every row whose primary key matches (at most one, by the PRIMARY KEY). -/
def usageSet (l : List ((String × String) × Nat)) (k : String × String) (v : Nat) :
    List ((String × String) × Nat) :=
  l.map (fun e => if e.1 = k then (k, v) else e)

/-- `usage_get` (lines 309-317): empty actor id short-circuits to 0;
otherwise the row's `used`, defaulting to 0 when the row is absent. -/
def usage_get (db : DB) (aty aid : String) : Nat :=
  if aid = "" then 0 else (usageLookup db aty aid).getD 0

/-- `usage_incr` (lines 319-340): empty actor id short-circuits to 0 with
no write; otherwise SELECT the row, then either UPDATE it to `used + n`
or INSERT a fresh row with `used = n`; returns the written value. -/
def usage_incr (db : DB) (aty aid : String) (n : Nat) : Nat × DB :=
  if aid = "" then (0, db)
  else
    match usageLookup db aty aid with
    | some u =>
        (u + n, { db with usage := usageSet db.usage (aty, aid) (u + n) })
    | none =>
        (n, { db with usage := ((aty, aid), n) :: db.usage })

/-- `actor_and_limit` (lines 342-356).  The request's authentication
result (`get_authed_user()`) and the guest cookie value (`get_guest_id()`,
`""` when the cookie is absent) are the inputs.  An authenticated user
gets limit 1_000_000 when `(plan or "free") == "pro"` and 11 otherwise; a
guest gets limit 10. -/
def actor_and_limit (u : Option User) (gid : String) :
    String × String × Nat × Option User :=
  match u with
  | some user =>
      let plan := if user.plan = "" then "free" else user.plan
      ("user", user.id, if plan = "pro" then 1000000 else 11, some user)
  | none => ("guest", gid, 10, none)

/-- The denial payload built by `quota_block_payload` (lines 358-379).
The JSON object's `used` field is `min(used, limit)`; `promo` records
whether the guest-only promo block is attached.  The presentational
`copy` / `cta` string blobs carry no further data and are elided. -/
structure QuotaPayload where
  error : String
  used : Nat
  limit : Nat
  headline : String
  promo : Bool
deriving Repr, DecidableEq

/-- `quota_block_payload(used, limit, is_logged_in)` (lines 358-379). -/
def quota_block_payload (used limit : Nat) (is_logged_in : Bool) : QuotaPayload :=
  { error := "quota_exceeded"
    used := min used limit
    limit := limit
    headline := "Free limit reached"
    promo := !is_logged_in }

/-- `enforce_quota_or_402` (lines 381-386): resolve the actor, increment
its counter unconditionally, and return the 402 payload when the
post-increment value exceeds the limit (`none` means the request is
allowed to proceed). -/
def enforce_quota_or_402 (db : DB) (u : Option User) (gid : String) :
    Option (QuotaPayload × Nat) × DB :=
  match actor_and_limit u gid with
  | (aty, aid, limit, uu) =>
      let r := usage_incr db aty aid 1
      if r.1 > limit then
        (some (quota_block_payload r.1 limit uu.isSome, 402), r.2)
      else
        (none, r.2)

/-- The empty database (fresh `db_init`). -/
def db0 : DB := { users := [], usage := [] }

/-- Repeated guest attempts against `/api/generate`: state after `n`
quota checks from a fresh database together with the outcome of the
`n`-th check (`none` for `n = 0`). -/
def run_guest (gid : String) : Nat → DB × Option (QuotaPayload × Nat)
  | 0 => (db0, none)
  | n + 1 =>
      let s := run_guest gid n
      let r := enforce_quota_or_402 s.1 none gid
      (r.2, r.1)

-- Basic lemmas about the usage table.

theorem find_usageSet_self (l : List ((String × String) × Nat))
    (k : String × String) (v : Nat)
    (h : (l.find? (fun e => decide (e.1 = k))).isSome) :
    (usageSet l k v).find? (fun e => decide (e.1 = k)) = some (k, v) := by
  induction l with
  | nil => simp [List.find?] at h
  | cons e t ih =>
      simp only [usageSet, List.map_cons]
      by_cases he : e.1 = k
      · rw [if_pos he, List.find?_cons_of_pos _ (by simp)]
      · rw [if_neg he, List.find?_cons_of_neg _ (by simpa using he)]
        rw [List.find?_cons_of_neg _ (by simpa using he)] at h
        exact ih h

theorem usageLookup_isSome_of_eq (db : DB) (aty aid : String) (u : Nat)
    (h : usageLookup db aty aid = some u) :
    (db.usage.find? (fun e => decide (e.1 = (aty, aid)))).isSome := by
  unfold usageLookup at h
  cases hf : db.usage.find? (fun e => decide (e.1 = (aty, aid))) with
  | none => rw [hf] at h; simp at h
  | some e => simp

/-- The value returned by `usage_incr` is the old counter plus `n`,
provided the actor id is nonempty. -/
theorem usage_incr_ret (db : DB) (aty aid : String) (n : Nat) (h : aid ≠ "") :
    (usage_incr db aty aid n).1 = usage_get db aty aid + n := by
  unfold usage_incr usage_get
  cases hl : usageLookup db aty aid with
  | some u => simp [h, hl]
  | none => simp [h, hl]

/-- After `usage_incr`, reading the same actor's counter yields the old
value plus `n`, provided the actor id is nonempty. -/
theorem usage_get_incr (db : DB) (aty aid : String) (n : Nat) (h : aid ≠ "") :
    usage_get (usage_incr db aty aid n).2 aty aid = usage_get db aty aid + n := by
  unfold usage_incr
  rw [if_neg h]
  cases hl : usageLookup db aty aid with
  | some u =>
      have hs := usageLookup_isSome_of_eq db aty aid u hl
      have h2 : usageLookup
          { db with usage := usageSet db.usage (aty, aid) (u + n) } aty aid
          = some (u + n) := by
        unfold usageLookup
        rw [find_usageSet_self db.usage (aty, aid) (u + n) hs]
        rfl
      unfold usage_get
      rw [if_neg h, if_neg h, hl, h2]
      simp
  | none =>
      have h2 : usageLookup
          { db with usage := ((aty, aid), n) :: db.usage } aty aid = some n := by
        unfold usageLookup
        rw [List.find?_cons_of_pos _ (by simp)]
        rfl
      unfold usage_get
      rw [if_neg h, if_neg h, hl, h2]
      simp

/-- Unfolding `enforce_quota_or_402` through the tuple returned by
`actor_and_limit`. -/
theorem enforce_unfold (db : DB) (u : Option User) (gid : String) :
    enforce_quota_or_402 db u gid =
      (if (usage_incr db (actor_and_limit u gid).1 (actor_and_limit u gid).2.1 1).1 >
          (actor_and_limit u gid).2.2.1
        then (some (quota_block_payload
                (usage_incr db (actor_and_limit u gid).1 (actor_and_limit u gid).2.1 1).1
                (actor_and_limit u gid).2.2.1
                (actor_and_limit u gid).2.2.2.isSome, 402),
              (usage_incr db (actor_and_limit u gid).1 (actor_and_limit u gid).2.1 1).2)
        else (none, (usage_incr db (actor_and_limit u gid).1 (actor_and_limit u gid).2.1 1).2)) := by
  cases u with
  | none => rfl
  | some x => rfl

theorem enforce_snd (db : DB) (u : Option User) (gid : String) :
    (enforce_quota_or_402 db u gid).2 =
      (usage_incr db (actor_and_limit u gid).1 (actor_and_limit u gid).2.1 1).2 := by
  rw [enforce_unfold]
  split <;> rfl

theorem enforce_fst_none_iff (db : DB) (u : Option User) (gid : String) :
    (enforce_quota_or_402 db u gid).1 = none ↔
      (usage_incr db (actor_and_limit u gid).1 (actor_and_limit u gid).2.1 1).1 ≤
        (actor_and_limit u gid).2.2.1 := by
  rw [enforce_unfold]
  by_cases hc : (usage_incr db (actor_and_limit u gid).1 (actor_and_limit u gid).2.1 1).1 >
      (actor_and_limit u gid).2.2.1
  · rw [if_pos hc]
    simp
    omega
  · rw [if_neg hc]
    simp
    omega

/-- After `n` guest quota checks from a fresh database, the guest's
counter is exactly `n` (nonempty guest id). -/
theorem run_guest_usage (gid : String) (h : gid ≠ "") (n : Nat) :
    usage_get (run_guest gid n).1 "guest" gid = n := by
  induction n with
  | zero => simp [run_guest, usage_get, usageLookup, db0, List.find?]
  | succ n ih =>
      show usage_get (enforce_quota_or_402 (run_guest gid n).1 none gid).2 "guest" gid = n + 1
      rw [enforce_snd]
      show usage_get (usage_incr (run_guest gid n).1 "guest" gid 1).2 "guest" gid = n + 1
      rw [usage_get_incr _ _ _ _ h, ih]

/-- Outcome of the `(n+1)`-st guest quota check from a fresh database. -/
theorem run_guest_result (gid : String) (h : gid ≠ "") (n : Nat) :
    (run_guest gid (n + 1)).2 =
      if n + 1 > 10 then some (quota_block_payload (n + 1) 10 false, 402) else none := by
  show (enforce_quota_or_402 (run_guest gid n).1 none gid).1 = _
  rw [enforce_unfold]
  have hv : (usage_incr (run_guest gid n).1 "guest" gid 1).1 = n + 1 := by
    show (usage_incr (run_guest gid n).1 "guest" gid 1).1 = n + 1
    rw [usage_incr_ret _ _ _ _ h, run_guest_usage gid h n]
  show (if (usage_incr (run_guest gid n).1 "guest" gid 1).1 > 10
      then (some (quota_block_payload (usage_incr (run_guest gid n).1 "guest" gid 1).1 10
              false, 402), (usage_incr (run_guest gid n).1 "guest" gid 1).2)
      else (none, (usage_incr (run_guest gid n).1 "guest" gid 1).2)).1 = _
  rw [hv]
  by_cases hc : n + 1 > 10
  · rw [if_pos hc, if_pos hc]
  · rw [if_neg hc, if_neg hc]

/-- Claim C1 counterexample: on the 11th guest attempt the denial payload
that the endpoint returns reports `used = 10`, not `used = 11` — the
payload clamps `used` to `min(used, limit)` even though the internal
post-increment counter is 11. -/
theorem guest_denial_payload_reports_clamped_used :
    (run_guest "g" 11).2 = some (quota_block_payload 11 10 false, 402) ∧
    (quota_block_payload 11 10 false).used = 10 ∧
    ¬ (quota_block_payload 11 10 false).used = 11 ∧
    usage_get (run_guest "g" 11).1 "guest" "g" = 11 := by decide

/-- Claim C1 (amended): for every guest actor with a nonempty identifier,
the first 10 quota-checked attempts are allowed and the 11th attempt is
denied with HTTP 402; the internal post-increment counter is then 11 and
the limit is 10, but the denial payload reports `used = min(11, 10) = 10`. -/
theorem guest_denied_from_eleventh_attempt (gid : String) (h : gid ≠ "") :
    (∀ k : Nat, 1 ≤ k → k ≤ 10 → (run_guest gid k).2 = none) ∧
    (run_guest gid 11).2 = some (quota_block_payload 11 10 false, 402) ∧
    (quota_block_payload 11 10 false).used = 10 ∧
    (quota_block_payload 11 10 false).limit = 10 ∧
    usage_get (run_guest gid 11).1 "guest" gid = 11 := by
  refine ⟨?_, ?_, by decide, by decide, run_guest_usage gid h 11⟩
  · intro k h1 h10
    obtain ⟨m, rfl⟩ : ∃ m, k = m + 1 := ⟨k - 1, by omega⟩
    rw [run_guest_result gid h m, if_neg (by omega)]
  · have : (11 : Nat) = 10 + 1 := rfl
    rw [this, run_guest_result gid h 10, if_pos (by omega)]

theorem guest_denied_from_eleventh_attempt_w :
    (run_guest "g" 3).2 = none ∧
    (run_guest "g" 11).2 = some (quota_block_payload 11 10 false, 402) :=
  ⟨(guest_denied_from_eleventh_attempt "g" (by decide)).1 3 (by decide) (by decide),
   (guest_denied_from_eleventh_attempt "g" (by decide)).2.1⟩

/-- Claim C2: the quota limit is 10 for a guest, 11 for an authenticated
free-plan user, and the large finite sentinel 1000000 for a pro-plan
user; a quota check increments the actor's counter by exactly 1
regardless of the decision, and the request is allowed exactly when the
post-increment counter is at most the limit. -/
theorem quota_policy_post_increment_decision (db : DB) (u : Option User) (gid : String)
    (h : (actor_and_limit u gid).2.1 ≠ "") :
    (actor_and_limit none gid).2.2.1 = 10 ∧
    (∀ x : User, x.plan = "free" → (actor_and_limit (some x) gid).2.2.1 = 11) ∧
    (∀ x : User, x.plan = "pro" → (actor_and_limit (some x) gid).2.2.1 = 1000000) ∧
    usage_get (enforce_quota_or_402 db u gid).2 (actor_and_limit u gid).1
        (actor_and_limit u gid).2.1
      = usage_get db (actor_and_limit u gid).1 (actor_and_limit u gid).2.1 + 1 ∧
    ((enforce_quota_or_402 db u gid).1 = none ↔
      usage_get db (actor_and_limit u gid).1 (actor_and_limit u gid).2.1 + 1
        ≤ (actor_and_limit u gid).2.2.1) := by
  refine ⟨rfl, ?_, ?_, ?_, ?_⟩
  · intro x hx
    simp [actor_and_limit, hx]
  · intro x hx
    simp [actor_and_limit, hx]
  · rw [enforce_snd]
    exact usage_get_incr db _ _ 1 h
  · rw [enforce_fst_none_iff, usage_incr_ret _ _ _ _ h]

theorem quota_policy_post_increment_decision_w :
    (actor_and_limit none "g").2.2.1 = 10 ∧
    (∀ x : User, x.plan = "free" → (actor_and_limit (some x) "g").2.2.1 = 11) ∧
    (∀ x : User, x.plan = "pro" → (actor_and_limit (some x) "g").2.2.1 = 1000000) ∧
    usage_get (enforce_quota_or_402 db0 none "g").2 (actor_and_limit none "g").1
        (actor_and_limit none "g").2.1
      = usage_get db0 (actor_and_limit none "g").1 (actor_and_limit none "g").2.1 + 1 ∧
    ((enforce_quota_or_402 db0 none "g").1 = none ↔
      usage_get db0 (actor_and_limit none "g").1 (actor_and_limit none "g").2.1 + 1
        ≤ (actor_and_limit none "g").2.2.1) :=
  quota_policy_post_increment_decision db0 none "g" (by decide)

/-- Claim C3 (code bug): a request carrying neither credentials nor a
guest cookie resolves to the empty guest id, and `usage_incr` then
short-circuits to 0 with no write, so every such quota check is allowed
and leaves the database untouched — the guest limit is never enforced on
this input, contradicting the spec's "never fails / quota cannot be
bypassed" requirement for actor resolution. -/
theorem empty_guest_id_bypasses_quota (db : DB) :
    enforce_quota_or_402 db none "" = (none, db) := rfl

/-!
User Directory and Subscription Gateway (`src/app.py`, lines 263-303 and
746-790).  `User` elides the constant `email_verified` and `created_at`
columns, which no operation of this subsystem ever reads.
-/

/-- SQL `COALESCE(?, column)`: the bind parameter when non-NULL,
otherwise the existing column value. -/
def coalesce (a b : Option String) : Option String :=
  match a with
  | some v => some v
  | none => b

/-- Effect of `upgrade_user_to_pro` (lines 291-303) on one row: rows
whose `id` matches get `plan='pro'` and COALESCE-filled Stripe refs,
every other row is untouched. -/
def upgrade_row (uid : String) (cust sub : Option String) (x : User) : User :=
  if x.id = uid then
    { x with plan := "pro",
             stripe_customer_id := coalesce cust x.stripe_customer_id,
             stripe_subscription_id := coalesce sub x.stripe_subscription_id }
  else x

/-- `upgrade_user_to_pro(user_id, stripe_customer_id, stripe_subscription_id)`
(lines 291-303): a single UPDATE over the `users` table. -/
def upgrade_user_to_pro (db : DB) (uid : String) (cust sub : Option String) : DB :=
  { db with users := db.users.map (upgrade_row uid cust sub) }

/-- `UPDATE users SET plan='free' WHERE id=?` (line 787). -/
def set_plan_free (db : DB) (uid : String) : DB :=
  { db with users := db.users.map (fun x => if x.id = uid then { x with plan := "free" } else x) }

/-- The fields of a decoded Stripe event that the handler reads:
`event["type"]` plus `obj.get("customer")`, `obj.get("subscription")`
and `obj.get("status")` of `event["data"]["object"]`. -/
structure StripeEvent where
  type : String
  customer : Option String
  subscription : Option String
  status : Option String
deriving Repr, DecidableEq

/-- `SELECT id FROM users WHERE stripe_customer_id=?` + `fetchone`
(lines 770 and 785); the handler only uses the row's `id`, so the whole
first matching row is returned. -/
def findByCustomer (db : DB) (cid : String) : Option User :=
  db.users.find? (fun x => decide (x.stripe_customer_id = some cid))

/-- The terminal subscription statuses of line 786. -/
def terminalStatuses : List String := ["canceled", "unpaid", "incomplete_expired"]

/-- Python's `str.lower()` on the ASCII status strings involved,
character by character (executable stand-in for `String.toLower`, whose
`String.mapAux` loop the kernel cannot evaluate). -/
def py_lower (s : String) : String := String.mk (s.data.map Char.toLower)

/-- The `checkout.session.completed` block of `stripe_webhook`
(lines 764-776): on a truthy customer id, look the user up by Stripe
customer id and upgrade it to pro, passing the event's customer and
subscription ids; otherwise do nothing. -/
def webhook_checkout_branch (ev : StripeEvent) (db : DB) : DB :=
  if ev.type = "checkout.session.completed" then
    match ev.customer with
    | some cid =>
        if cid = "" then db
        else
          match findByCustomer db cid with
          | some row => upgrade_user_to_pro db row.id (some cid) ev.subscription
          | none => db
    | none => db
  else db

/-- The `customer.subscription.deleted / updated` block of
`stripe_webhook` (lines 779-788): on a truthy customer id, if a user
matches and the lowercased status is terminal, set its plan to free;
every other case is a no-op. -/
def webhook_subscription_branch (ev : StripeEvent) (db : DB) : DB :=
  if ev.type = "customer.subscription.deleted" ∨ ev.type = "customer.subscription.updated" then
    match ev.customer with
    | some cid =>
        if cid = "" then db
        else
          match findByCustomer db cid with
          | some row =>
              if py_lower (ev.status.getD "") ∈ terminalStatuses then set_plan_free db row.id
              else db
          | none => db
    | none => db
  else db

/-- `stripe_webhook` (lines 746-790).  `secretConfigured` models the
`STRIPE_WEBHOOK_SECRET` guard; `sigOk` models whether
`stripe.Webhook.construct_event` verifies the payload's signature (it
raises on a bad signature).  The two event blocks then run in sequence
and the handler answers `("OK", 200)`. -/
def stripe_webhook (secretConfigured sigOk : Bool) (ev : StripeEvent) (db : DB) :
    DB × String × Nat :=
  if !secretConfigured then (db, "Missing webhook secret", 500)
  else if !sigOk then (db, "Bad signature", 400)
  else (webhook_subscription_branch ev (webhook_checkout_branch ev db), "OK", 200)

/-- Mapping a function over a list keeps the first `find?` hit when the
function fixes every non-matching element of the list and keeps the hit
matching. -/
theorem find?_map_of_fix {α : Type} (l : List α) (p : α → Bool) (f : α → α) (a : α)
    (h : l.find? p = some a)
    (hfix : ∀ x ∈ l, p x = false → f x = x)
    (hfa : p (f a) = true) :
    (l.map f).find? p = some (f a) := by
  induction l with
  | nil => simp [List.find?] at h
  | cons e t ih =>
      rw [List.map_cons]
      cases hpe : p e with
      | true =>
          rw [List.find?_cons_of_pos _ hpe] at h
          injection h with h
          subst h
          rw [List.find?_cons_of_pos _ hfa]
      | false =>
          rw [List.find?_cons_of_neg _ (by simp [hpe])] at h
          rw [hfix e (by simp) hpe, List.find?_cons_of_neg _ (by simp [hpe])]
          exact ih h (fun x hx hpx => hfix x (by simp [hx]) hpx)

/-- A non-checkout event leaves the checkout block inert. -/
theorem checkout_branch_other (ev : StripeEvent) (db : DB)
    (h : ev.type ≠ "checkout.session.completed") :
    webhook_checkout_branch ev db = db := by
  unfold webhook_checkout_branch
  rw [if_neg h]

/-- A non-subscription event leaves the subscription block inert. -/
theorem subscription_branch_other (ev : StripeEvent) (db : DB)
    (h : ¬ (ev.type = "customer.subscription.deleted" ∨
            ev.type = "customer.subscription.updated")) :
    webhook_subscription_branch ev db = db := by
  unfold webhook_subscription_branch
  rw [if_neg h]

/-- Claim C6: when the Stripe signature check fails, the handler mutates
nothing — the returned state is the input state — and it answers the
client error `("Bad signature", 400)`. -/
theorem webhook_bad_signature_no_mutation (db : DB) (ev : StripeEvent) :
    stripe_webhook true false ev db = (db, "Bad signature", 400) := rfl

/-- Claim C7: on a verified `customer.subscription.deleted/updated`
event the handler answers `("OK", 200)`; with a matching user and a
terminal status it sets exactly that user's plan to free, with a
non-terminal status it is a no-op, and with no matching user (or no
customer id) it is a no-op that still answers 200. -/
theorem subscription_event_downgrade_semantics (db : DB) (ev : StripeEvent)
    (ht : ev.type = "customer.subscription.deleted" ∨
          ev.type = "customer.subscription.updated") :
    (stripe_webhook true true ev db).2 = ("OK", 200) ∧
    (∀ cid : String, ev.customer = some cid → cid ≠ "" →
      (∀ row : User, findByCustomer db cid = some row →
        (py_lower (ev.status.getD "") ∈ terminalStatuses →
            (stripe_webhook true true ev db).1 = set_plan_free db row.id) ∧
        (¬ py_lower (ev.status.getD "") ∈ terminalStatuses →
            (stripe_webhook true true ev db).1 = db)) ∧
      (findByCustomer db cid = none → (stripe_webhook true true ev db).1 = db)) ∧
    (ev.customer = none → (stripe_webhook true true ev db).1 = db) ∧
    (∀ uid : String, ∀ x : User, x ∈ (set_plan_free db uid).users →
      x.id = uid → x.plan = "free") := by
  have hne : ev.type ≠ "checkout.session.completed" := by
    rcases ht with h | h <;> rw [h] <;> decide
  have hck : webhook_checkout_branch ev db = db := checkout_branch_other ev db hne
  have hmain : (stripe_webhook true true ev db).1 = webhook_subscription_branch ev db := by
    show webhook_subscription_branch ev (webhook_checkout_branch ev db) = _
    rw [hck]
  refine ⟨rfl, ?_, ?_, ?_⟩
  · intro cid hcid hcid0
    constructor
    · intro row hrow
      constructor
      · intro hterm
        rw [hmain]
        unfold webhook_subscription_branch
        rw [if_pos ht, hcid]
        simp [hcid0, hrow, hterm]
      · intro hterm
        rw [hmain]
        unfold webhook_subscription_branch
        rw [if_pos ht, hcid]
        simp [hcid0, hrow, hterm]
    · intro hnone
      rw [hmain]
      unfold webhook_subscription_branch
      rw [if_pos ht, hcid]
      simp [hcid0, hnone]
  · intro hnone
    rw [hmain]
    unfold webhook_subscription_branch
    rw [if_pos ht, hnone]
  · intro uid x hx hid
    unfold set_plan_free at hx
    simp only [List.mem_map] at hx
    obtain ⟨y, hy, rfl⟩ := hx
    by_cases hyu : y.id = uid
    · simp [hyu]
    · rw [if_neg hyu] at hid ⊢
      exact absurd hid hyu

theorem subscription_event_downgrade_semantics_w :
    (stripe_webhook true true
        { type := "customer.subscription.deleted", customer := some "cus_1",
          subscription := none, status := some "canceled" }
        { users := [{ id := "u1", email := "a@b.c", name := "", picture := "",
                      plan := "pro", stripe_customer_id := some "cus_1",
                      stripe_subscription_id := some "sub_1" }], usage := [] }).1.users.map
      (fun x => x.plan) = ["free"] := by
  have h := subscription_event_downgrade_semantics
    { users := [{ id := "u1", email := "a@b.c", name := "", picture := "",
                  plan := "pro", stripe_customer_id := some "cus_1",
                  stripe_subscription_id := some "sub_1" }], usage := [] }
    { type := "customer.subscription.deleted", customer := some "cus_1",
      subscription := none, status := some "canceled" }
    (Or.inl rfl)
  have h2 := (((h.2.1 "cus_1" rfl (by decide)).1
      { id := "u1", email := "a@b.c", name := "", picture := "",
        plan := "pro", stripe_customer_id := some "cus_1",
        stripe_subscription_id := some "sub_1" } (by decide)).1 (by decide))
  rw [h2]
  decide

/-- `upgrade_row` never changes the row id. -/
theorem upgrade_row_id (uid : String) (cust sub : Option String) (x : User) :
    (upgrade_row uid cust sub x).id = x.id := by
  by_cases hx : x.id = uid <;> simp [upgrade_row, hx]

/-- Applying the same upgrade twice to a row equals applying it once. -/
theorem upgrade_row_idem (uid : String) (cust sub : Option String) (x : User) :
    upgrade_row uid cust sub (upgrade_row uid cust sub x) = upgrade_row uid cust sub x := by
  by_cases hx : x.id = uid <;> cases cust <;> cases sub <;>
    simp [upgrade_row, coalesce, hx]

/-- `upgrade_user_to_pro` with fixed arguments is idempotent on the
whole table. -/
theorem upgrade_user_to_pro_idem (db : DB) (uid : String) (cust sub : Option String) :
    upgrade_user_to_pro (upgrade_user_to_pro db uid cust sub) uid cust sub =
      upgrade_user_to_pro db uid cust sub := by
  unfold upgrade_user_to_pro
  simp only [List.map_map]
  rw [List.map_congr_left (fun x _ => by
    simp only [Function.comp]
    exact upgrade_row_idem uid cust sub x)]

/-- Replaying the checkout block on its own output is a no-op, given the
PRIMARY KEY invariant that no two distinct rows share an id. -/
theorem checkout_branch_idem (ev : StripeEvent) (db : DB)
    (huniq : ∀ x ∈ db.users, ∀ y ∈ db.users, x.id = y.id → x = y) :
    webhook_checkout_branch ev (webhook_checkout_branch ev db) =
      webhook_checkout_branch ev db := by
  by_cases hty : ev.type = "checkout.session.completed"
  case neg => rw [checkout_branch_other ev db hty, checkout_branch_other ev db hty]
  case pos =>
  cases hcust : ev.customer with
  | none =>
      have hB : webhook_checkout_branch ev db = db := by
        unfold webhook_checkout_branch
        rw [if_pos hty, hcust]
      rw [hB, hB]
  | some cid =>
      by_cases hc0 : cid = ""
      · have hB : webhook_checkout_branch ev db = db := by
          unfold webhook_checkout_branch
          rw [if_pos hty, hcust]
          simp [hc0]
        rw [hB, hB]
      · cases hfind : findByCustomer db cid with
        | none =>
            have hB : webhook_checkout_branch ev db = db := by
              unfold webhook_checkout_branch
              rw [if_pos hty, hcust]
              simp [hc0, hfind]
            rw [hB, hB]
        | some row =>
            have hB : webhook_checkout_branch ev db =
                upgrade_user_to_pro db row.id (some cid) ev.subscription := by
              unfold webhook_checkout_branch
              rw [if_pos hty, hcust]
              simp [hc0, hfind]
            have hrowmem : row ∈ db.users := List.mem_of_find?_eq_some hfind
            have hprow := List.find?_some hfind
            have hfix : ∀ x ∈ db.users,
                decide (x.stripe_customer_id = some cid) = false →
                upgrade_row row.id (some cid) ev.subscription x = x := by
              intro x hx hpx
              by_cases hxid : x.id = row.id
              · exfalso
                have hxr := huniq x hx row hrowmem hxid
                subst hxr
                rw [hprow] at hpx
                exact Bool.noConfusion hpx
              · simp [upgrade_row, hxid]
            have hfa : decide ((upgrade_row row.id (some cid)
                ev.subscription row).stripe_customer_id = some cid) = true := by
              simp [upgrade_row, coalesce]
            have hfind2 : findByCustomer
                (upgrade_user_to_pro db row.id (some cid) ev.subscription) cid
                = some (upgrade_row row.id (some cid) ev.subscription row) := by
              unfold findByCustomer upgrade_user_to_pro
              exact find?_map_of_fix db.users _ _ row hfind hfix hfa
            rw [hB]
            unfold webhook_checkout_branch
            rw [if_pos hty, hcust]
            simp only [hc0, hfind2, upgrade_row_id]
            simp [hc0]
            exact upgrade_user_to_pro_idem db row.id (some cid) ev.subscription

/-- Claim C5: replaying an identical verified `checkout.session.completed`
event is idempotent — the second application leaves the state exactly as
after the first — and any `upgrade_user_to_pro` call leaves the target's
plan at `pro` (never a downgrade) while COALESCE never overwrites an
already-set Stripe reference with NULL. -/
theorem checkout_completed_replay_idempotent (db : DB) (ev : StripeEvent)
    (huniq : ∀ x ∈ db.users, ∀ y ∈ db.users, x.id = y.id → x = y)
    (het : ev.type = "checkout.session.completed") :
    (stripe_webhook true true ev ((stripe_webhook true true ev db).1)).1 =
      (stripe_webhook true true ev db).1 ∧
    (∀ uid : String, ∀ cust sub : Option String, ∀ x : User,
      (upgrade_row uid cust sub x).id = x.id ∧
      (x.id = uid → (upgrade_row uid cust sub x).plan = "pro") ∧
      (x.stripe_customer_id.isSome →
        (upgrade_row uid cust sub x).stripe_customer_id.isSome) ∧
      (x.stripe_subscription_id.isSome →
        (upgrade_row uid cust sub x).stripe_subscription_id.isSome)) := by
  constructor
  · have hsub : ∀ d : DB, webhook_subscription_branch ev d = d := by
      intro d
      refine subscription_branch_other ev d ?_
      rw [het]
      decide
    have h1 : (stripe_webhook true true ev db).1 = webhook_checkout_branch ev db := by
      show webhook_subscription_branch ev (webhook_checkout_branch ev db) = _
      exact hsub _
    have h2 : (stripe_webhook true true ev ((stripe_webhook true true ev db).1)).1 =
        webhook_checkout_branch ev ((stripe_webhook true true ev db).1) := by
      show webhook_subscription_branch ev
        (webhook_checkout_branch ev ((stripe_webhook true true ev db).1)) = _
      exact hsub _
    rw [h2, h1]
    exact checkout_branch_idem ev db huniq
  · intro uid cust sub x
    refine ⟨upgrade_row_id uid cust sub x, ?_, ?_, ?_⟩
    · intro hx
      simp [upgrade_row, hx]
    · intro hcs
      by_cases hx : x.id = uid
      · cases cust <;> simp [upgrade_row, coalesce, hx, hcs]
      · simp [upgrade_row, hx, hcs]
    · intro hcs
      by_cases hx : x.id = uid
      · cases sub <;> simp [upgrade_row, coalesce, hx, hcs]
      · simp [upgrade_row, hx, hcs]

theorem checkout_completed_replay_idempotent_w :
    ((stripe_webhook true true
        { type := "checkout.session.completed", customer := some "cus_1",
          subscription := some "sub_1", status := none }
        ((stripe_webhook true true
          { type := "checkout.session.completed", customer := some "cus_1",
            subscription := some "sub_1", status := none }
          { users := [{ id := "u1", email := "a@b.c", name := "", picture := "",
                        plan := "free", stripe_customer_id := some "cus_1",
                        stripe_subscription_id := none }], usage := [] }).1)).1 =
      (stripe_webhook true true
        { type := "checkout.session.completed", customer := some "cus_1",
          subscription := some "sub_1", status := none }
        { users := [{ id := "u1", email := "a@b.c", name := "", picture := "",
                      plan := "free", stripe_customer_id := some "cus_1",
                      stripe_subscription_id := none }], usage := [] }).1) :=
  (checkout_completed_replay_idempotent
    { users := [{ id := "u1", email := "a@b.c", name := "", picture := "",
                  plan := "free", stripe_customer_id := some "cus_1",
                  stripe_subscription_id := none }], usage := [] }
    { type := "checkout.session.completed", customer := some "cus_1",
      subscription := some "sub_1", status := none }
    (by decide) rfl).1

/-- The subscription block either leaves the table untouched or sets one
matched user's plan to free. -/
theorem subscription_branch_result (ev : StripeEvent) (db : DB) :
    webhook_subscription_branch ev db = db ∨
    ∃ row : User, webhook_subscription_branch ev db = set_plan_free db row.id := by
  by_cases ht : ev.type = "customer.subscription.deleted" ∨
      ev.type = "customer.subscription.updated"
  · unfold webhook_subscription_branch
    rw [if_pos ht]
    cases hcust : ev.customer with
    | none => exact Or.inl rfl
    | some cid =>
        by_cases hc0 : cid = ""
        · exact Or.inl (by simp [hc0])
        · cases hfind : findByCustomer db cid with
          | none => exact Or.inl (by simp [hc0, hfind])
          | some row =>
              by_cases hterm : py_lower (ev.status.getD "") ∈ terminalStatuses
              · exact Or.inr ⟨row, by simp [hc0, hfind, hterm]⟩
              · exact Or.inl (by simp [hc0, hfind, hterm])
  · exact Or.inl (subscription_branch_other ev db ht)

/-- `set_plan_free` changes no user's `stripe_subscription_id`. -/
theorem set_plan_free_preserves_sub_ref (db : DB) (uid : String) :
    (set_plan_free db uid).users.map (fun x => x.stripe_subscription_id) =
      db.users.map (fun x => x.stripe_subscription_id) := by
  unfold set_plan_free
  rw [List.map_map]
  refine List.map_congr_left ?_
  intro x _
  by_cases hx : x.id = uid <;> simp [Function.comp, hx]

/-- Claim C10 counterexample: a verified `customer.subscription.updated`
event with terminal status `canceled` for customer `cus_1` downgrades the
matching user's plan to free, yet the user's stored subscription
reference stays at the stale `sub_old` — the handler never writes
`stripe_subscription_id` on subscription events, so the reference is not
"updated to reflect the reported subscription". -/
theorem subscription_event_leaves_ref_concrete :
    ((stripe_webhook true true
        { type := "customer.subscription.updated", customer := some "cus_1",
          subscription := some "sub_new", status := some "canceled" }
        { users := [{ id := "u1", email := "a@b.c", name := "", picture := "",
                      plan := "pro", stripe_customer_id := some "cus_1",
                      stripe_subscription_id := some "sub_old" }],
          usage := [] }).1.users.map (fun x => x.stripe_subscription_id)
      = [some "sub_old"]) ∧
    ((stripe_webhook true true
        { type := "customer.subscription.updated", customer := some "cus_1",
          subscription := some "sub_new", status := some "canceled" }
        { users := [{ id := "u1", email := "a@b.c", name := "", picture := "",
                      plan := "pro", stripe_customer_id := some "cus_1",
                      stripe_subscription_id := some "sub_old" }],
          usage := [] }).1.users.map (fun x => x.plan) = ["free"]) := by decide

/-- Claim C10 (amended): a verified subscription updated/deleted event
never modifies any user's `stripe_subscription_id` (a terminal status
changes only the plan); the subscription reference is written only by the
checkout-completed upgrade path, which stores the event's subscription id
via COALESCE whenever one is present. -/
theorem subscription_events_preserve_subscription_ref (db : DB) (ev : StripeEvent)
    (ht : ev.type = "customer.subscription.deleted" ∨
          ev.type = "customer.subscription.updated") :
    (stripe_webhook true true ev db).1.users.map (fun x => x.stripe_subscription_id)
      = db.users.map (fun x => x.stripe_subscription_id) ∧
    (∀ uid : String, ∀ cust : Option String, ∀ s : String, ∀ x : User,
      x.id = uid →
      (upgrade_row uid cust (some s) x).stripe_subscription_id = some s) := by
  constructor
  · have hne : ev.type ≠ "checkout.session.completed" := by
      rcases ht with h | h <;> rw [h] <;> decide
    have hmain : (stripe_webhook true true ev db).1 = webhook_subscription_branch ev db := by
      show webhook_subscription_branch ev (webhook_checkout_branch ev db) = _
      rw [checkout_branch_other ev db hne]
    rw [hmain]
    rcases subscription_branch_result ev db with h | ⟨row, h⟩
    · rw [h]
    · rw [h]
      exact set_plan_free_preserves_sub_ref db row.id
  · intro uid cust s x hx
    simp [upgrade_row, coalesce, hx]

theorem subscription_events_preserve_subscription_ref_w :
    ((stripe_webhook true true
        { type := "customer.subscription.deleted", customer := none,
          subscription := none, status := none } db0).1.users.map
        (fun x => x.stripe_subscription_id)
      = db0.users.map (fun x => x.stripe_subscription_id)) ∧
    (∀ uid : String, ∀ cust : Option String, ∀ s : String, ∀ x : User,
      x.id = uid →
      (upgrade_row uid cust (some s) x).stripe_subscription_id = some s) :=
  subscription_events_preserve_subscription_ref db0
    { type := "customer.subscription.deleted", customer := none,
      subscription := none, status := none } (Or.inl rfl)

/-!
Credential Verifier (`src/app.py`, lines 146-156).  `sign_token` and
`verify_token` wrap the itsdangerous `URLSafeTimedSerializer`, an
external library; following the spec (§4.2) a credential is a signed,
tamper-evident envelope of `{userId, issuedAt}` whose verification
recomputes the signature from the process-wide secret and enforces a
maximum age.
-/

/-- A serialized bearer credential: the `{"uid": ...}` payload, the
timestamp the serializer attaches, and the signature string. -/
structure AuthToken where
  uid : String
  issuedAt : Nat
  mac : String
deriving Repr, DecidableEq

/-- Modelled from the spec: the deterministic signature the serializer
derives from the secret, its salt and the signed content (the concrete
HMAC is opaque, so it is represented by an injective encoding of those
inputs). -/
def mac_of (secret uid : String) (issuedAt : Nat) : String :=
  secret ++ "|vm-auth|" ++ uid ++ "|" ++ toString issuedAt

/-- The two failures `verify_token` catches (itsdangerous raises
`BadSignature` for a wrong signature and `SignatureExpired` for an
over-age token). -/
inductive TokenError where
  | badSignature
  | signatureExpired
deriving Repr, DecidableEq

/-- Modelled from the spec: `serializer.dumps({"uid": user_id})` signs
the payload together with the current timestamp. -/
def serializer_dumps (secret : String) (now : Nat) (uid : String) : AuthToken :=
  { uid := uid, issuedAt := now, mac := mac_of secret uid now }

/-- Modelled from the spec: `serializer.loads(token, max_age)` checks
the signature first, then the token's age against `max_age`. -/
def serializer_loads (secret : String) (now maxAge : Nat) (t : AuthToken) :
    Except TokenError String :=
  if t.mac ≠ mac_of secret t.uid t.issuedAt then Except.error TokenError.badSignature
  else if now - t.issuedAt > maxAge then Except.error TokenError.signatureExpired
  else Except.ok t.uid

/-- `sign_token` (lines 148-149). -/
def sign_token (secret : String) (now : Nat) (user_id : String) : AuthToken :=
  serializer_dumps secret now user_id

/-- The default `max_age_seconds = 60 * 60 * 24 * 30` of `verify_token`
(line 151). -/
def MAX_AGE_SECONDS : Nat := 60 * 60 * 24 * 30

/-- `verify_token` (lines 151-156): deserialize and return the payload's
`uid`; both `BadSignature` and `SignatureExpired` are caught and become
`none`, so verification is a total function that never raises. -/
def verify_token (secret : String) (now : Nat) (t : AuthToken) (maxAge : Nat) :
    Option String :=
  match serializer_loads secret now maxAge t with
  | Except.ok uid => some uid
  | Except.error _ => none

/-- Claim C8: signing a credential for user id U and verifying it within
the 30-day window yields U; verifying it after the window yields `none`;
verifying a tampered credential (signature mismatch) yields `none` at
any time — and `verify_token` is a total function into `Option`, so no
failure escapes as an exception. -/
theorem token_roundtrip_and_expiry (secret uid : String) (t d : Nat)
    (hd : d ≤ MAX_AGE_SECONDS) :
    verify_token secret (t + d) (sign_token secret t uid) MAX_AGE_SECONDS = some uid ∧
    (∀ e : Nat, e > MAX_AGE_SECONDS →
      verify_token secret (t + e) (sign_token secret t uid) MAX_AGE_SECONDS = none) ∧
    (∀ tok : AuthToken, ∀ now : Nat, tok.mac ≠ mac_of secret tok.uid tok.issuedAt →
      verify_token secret now tok MAX_AGE_SECONDS = none) := by
  refine ⟨?_, ?_, ?_⟩
  · unfold verify_token serializer_loads sign_token serializer_dumps
    rw [if_neg (by simp), if_neg (by
      simp only [MAX_AGE_SECONDS] at hd ⊢
      omega)]
  · intro e he
    unfold verify_token serializer_loads sign_token serializer_dumps
    rw [if_neg (by simp), if_pos (by
      simp only [MAX_AGE_SECONDS] at he ⊢
      omega)]
  · intro tok now hmac
    unfold verify_token serializer_loads
    rw [if_pos hmac]

theorem token_roundtrip_and_expiry_w :
    verify_token "s" (0 + 0) (sign_token "s" 0 "u") MAX_AGE_SECONDS = some "u" :=
  (token_roundtrip_and_expiry "s" "u" 0 0 (by decide)).1

/-!
User Directory upsert (`src/app.py`, lines 263-289).
-/

/-- Python's `str.strip()` (executable stand-in for `String.trim`). -/
def py_strip (s : String) : String :=
  String.mk (((s.data.dropWhile Char.isWhitespace).reverse.dropWhile
    Char.isWhitespace).reverse)

/-- `(email or "").strip().lower()` (line 264). -/
def normalize_email (email0 : String) : String := py_lower (py_strip email0)

/-- `UPDATE users SET name=?, picture=? WHERE email=?` (lines 271-274):
the bind values were computed once from the fetched row. -/
def refreshed_users (db : DB) (email newName newPic : String) : List User :=
  db.users.map (fun x =>
    if x.email = email then { x with name := newName, picture := newPic } else x)

/-- The freshly INSERTed row (lines 279-286): id `"usr_" + uuid4().hex`,
plan `'free'`. -/
def new_user (freshId email name picture : String) : User :=
  { id := "usr_" ++ freshId, email := email, name := name, picture := picture,
    plan := "free", stripe_customer_id := none, stripe_subscription_id := none }

/-- `create_or_get_user_by_email` (lines 263-289): normalize the email,
raise `ValueError` on empty (modelled as `Except.error`), then either
refresh the existing row's display fields (`name or row["name"]`,
`picture or row["picture"]`) and re-SELECT it, or INSERT a fresh free
row and re-SELECT it by id.  `freshId` stands for `uuid4().hex`; an
empty re-SELECT would crash the Python (`dict(None)`) and is an error
branch here. -/
def create_or_get_user_by_email (db : DB) (freshId email0 name picture : String) :
    Except String (User × DB) :=
  if normalize_email email0 = "" then Except.error "Missing email"
  else
    match db.users.find? (fun x => decide (x.email = normalize_email email0)) with
    | some row =>
        match (refreshed_users db (normalize_email email0)
            (if name = "" then row.name else name)
            (if picture = "" then row.picture else picture)).find?
            (fun x => decide (x.email = normalize_email email0)) with
        | some row2 =>
            Except.ok (row2, { db with users := (refreshed_users db
              (normalize_email email0)
              (if name = "" then row.name else name)
              (if picture = "" then row.picture else picture)) })
        | none => Except.error "user row missing after update"
    | none =>
        match (db.users ++ [new_user freshId (normalize_email email0) name picture]).find?
            (fun x => decide (x.id = "usr_" ++ freshId)) with
        | some row2 =>
            Except.ok (row2, { db with users := (db.users ++
              [new_user freshId (normalize_email email0) name picture]) })
        | none => Except.error "user row missing after insert"

/-- `find?` skips a prefix in which nothing matches. -/
theorem find?_append_left_none {α : Type} (l₁ l₂ : List α) (p : α → Bool)
    (h : l₁.find? p = none) : (l₁ ++ l₂).find? p = l₂.find? p := by
  induction l₁ with
  | nil => simp
  | cons e t ih =>
      rw [List.cons_append]
      cases hpe : p e with
      | true =>
          rw [List.find?_cons_of_pos _ hpe] at h
          exact absurd h (by simp)
      | false =>
          rw [List.find?_cons_of_neg _ (by simp [hpe])] at h
          rw [List.find?_cons_of_neg _ (by simp [hpe])]
          exact ih h

/-- Upsert, insert case: an absent email creates one fresh free-plan row
appended to the table. -/
theorem upsert_insert_case (db : DB) (freshId email0 name pic : String)
    (hne : normalize_email email0 ≠ "")
    (hnew : ∀ x ∈ db.users, x.email ≠ normalize_email email0)
    (hfresh : ∀ x ∈ db.users, x.id ≠ "usr_" ++ freshId) :
    create_or_get_user_by_email db freshId email0 name pic =
      Except.ok (new_user freshId (normalize_email email0) name pic,
        { db with users := (db.users ++
          [new_user freshId (normalize_email email0) name pic]) }) := by
  have hfind0 : db.users.find? (fun x => decide (x.email = normalize_email email0))
      = none :=
    List.find?_eq_none.mpr (fun x hx => by simpa using hnew x hx)
  have hfindid : db.users.find? (fun x => decide (x.id = "usr_" ++ freshId)) = none :=
    List.find?_eq_none.mpr (fun x hx => by simpa using hfresh x hx)
  have hfind1 : (db.users ++
      [new_user freshId (normalize_email email0) name pic]).find?
      (fun x => decide (x.id = "usr_" ++ freshId))
      = some (new_user freshId (normalize_email email0) name pic) := by
    rw [find?_append_left_none _ _ _ hfindid,
      List.find?_cons_of_pos _ (by simp [new_user])]
  unfold create_or_get_user_by_email
  rw [if_neg hne, hfind0, hfind1]

/-- Upsert, update case: a present email takes the refresh branch and
returns the refreshed first matching row; no row is added. -/
theorem upsert_update_case (db : DB) (freshId email0 name pic : String) (row : User)
    (hne : normalize_email email0 ≠ "")
    (hrow : db.users.find? (fun x => decide (x.email = normalize_email email0))
      = some row) :
    create_or_get_user_by_email db freshId email0 name pic =
      Except.ok ({ row with
                   name := (if name = "" then row.name else name),
                   picture := (if pic = "" then row.picture else pic) },
        { db with users := (refreshed_users db (normalize_email email0)
          (if name = "" then row.name else name)
          (if pic = "" then row.picture else pic)) }) := by
  have hemail : row.email = normalize_email email0 := by
    simpa using List.find?_some hrow
  have hfix : ∀ x ∈ db.users,
      decide (x.email = normalize_email email0) = false →
      (if x.email = normalize_email email0 then
        { x with
          name := (if name = "" then row.name else name),
          picture := (if pic = "" then row.picture else pic) }
      else x) = x := by
    intro x _ hpx
    rw [if_neg (by simpa using hpx)]
  have hfa : decide (((if row.email = normalize_email email0 then
      { row with
        name := (if name = "" then row.name else name),
        picture := (if pic = "" then row.picture else pic) }
      else row) : User).email = normalize_email email0) = true := by
    rw [if_pos hemail]
    simpa using hemail
  have hfind3 : (refreshed_users db (normalize_email email0)
      (if name = "" then row.name else name)
      (if pic = "" then row.picture else pic)).find?
      (fun x => decide (x.email = normalize_email email0))
      = some ({ row with
                name := (if name = "" then row.name else name),
                picture := (if pic = "" then row.picture else pic) }) := by
    unfold refreshed_users
    have h := find?_map_of_fix db.users
      (fun x => decide (x.email = normalize_email email0))
      (fun x => if x.email = normalize_email email0 then
        { x with
          name := (if name = "" then row.name else name),
          picture := (if pic = "" then row.picture else pic) }
        else x) row hrow hfix hfa
    have hred : ((fun x => if x.email = normalize_email email0 then
        ({ x with
           name := (if name = "" then row.name else name),
           picture := (if pic = "" then row.picture else pic) } : User)
        else x) row)
        = ({ row with
             name := (if name = "" then row.name else name),
             picture := (if pic = "" then row.picture else pic) } : User) := by
      show (if row.email = normalize_email email0 then
        ({ row with
           name := (if name = "" then row.name else name),
           picture := (if pic = "" then row.picture else pic) } : User)
        else row) = _
      rw [if_pos hemail]
    rw [hred] at h
    exact h
  unfold create_or_get_user_by_email
  rw [if_neg hne]
  simp only [hrow, hfind3]

/-- Claim C9: upserting an email that is absent creates exactly one new
row with plan `free`; a second upsert of the same email adds no row,
refreshes the mutable display fields, and returns a record with the same
id as the first call. -/
theorem upsert_same_email_single_row (db : DB)
    (freshId email0 name pic name2 pic2 fresh2 : String)
    (hne : normalize_email email0 ≠ "")
    (hnew : ∀ x ∈ db.users, x.email ≠ normalize_email email0)
    (hfresh : ∀ x ∈ db.users, x.id ≠ "usr_" ++ freshId) :
    ∃ u1 : User, ∃ db1 : DB,
      create_or_get_user_by_email db freshId email0 name pic = Except.ok (u1, db1) ∧
      u1.plan = "free" ∧
      u1.id = "usr_" ++ freshId ∧
      u1.email = normalize_email email0 ∧
      db1.users.length = db.users.length + 1 ∧
      ∃ u2 : User, ∃ db2 : DB,
        create_or_get_user_by_email db1 fresh2 email0 name2 pic2 = Except.ok (u2, db2) ∧
        u2.id = u1.id ∧
        db2.users.length = db1.users.length ∧
        u2.name = (if name2 = "" then u1.name else name2) := by
  have hfind0 : db.users.find? (fun x => decide (x.email = normalize_email email0))
      = none :=
    List.find?_eq_none.mpr (fun x hx => by simpa using hnew x hx)
  refine ⟨new_user freshId (normalize_email email0) name pic,
    { db with users := (db.users ++
      [new_user freshId (normalize_email email0) name pic]) },
    upsert_insert_case db freshId email0 name pic hne hnew hfresh,
    rfl, rfl, rfl, by simp, ?_⟩
  have hrow2 : ({ db with users := (db.users ++
      [new_user freshId (normalize_email email0) name pic]) } : DB).users.find?
      (fun x => decide (x.email = normalize_email email0))
      = some (new_user freshId (normalize_email email0) name pic) := by
    show (db.users ++ [new_user freshId (normalize_email email0) name pic]).find? _ = _
    rw [find?_append_left_none _ _ _ hfind0,
      List.find?_cons_of_pos _ (by simp [new_user])]
  have hcall2 := upsert_update_case
    { db with users := (db.users ++
      [new_user freshId (normalize_email email0) name pic]) }
    fresh2 email0 name2 pic2
    (new_user freshId (normalize_email email0) name pic) hne hrow2
  exact ⟨_, _, hcall2, rfl, by simp [refreshed_users], rfl⟩

theorem upsert_same_email_single_row_w :
    ∃ u1 : User, ∃ db1 : DB,
      create_or_get_user_by_email db0 "f1" "a@b.c" "N" "P" = Except.ok (u1, db1) ∧
      u1.plan = "free" ∧
      u1.id = "usr_" ++ "f1" ∧
      u1.email = normalize_email "a@b.c" ∧
      db1.users.length = db0.users.length + 1 ∧
      ∃ u2 : User, ∃ db2 : DB,
        create_or_get_user_by_email db1 "f2" "a@b.c" "N2" "P2" = Except.ok (u2, db2) ∧
        u2.id = u1.id ∧
        db2.users.length = db1.users.length ∧
        u2.name = (if "N2" = "" then u1.name else "N2") :=
  upsert_same_email_single_row db0 "f1" "a@b.c" "N" "P" "N2" "P2" "f2"
    (by decide) (by decide) (by decide)

/-!
Concurrency model of `usage_incr` (`src/app.py`, lines 319-340).  The
function issues two separate SQL statements on its own fresh connection:
a SELECT of the current counter (line 323) and then an UPDATE or INSERT
whose `used` value was computed in Python from the fetched row
(lines 327-338).  For a fixed actor, each in-flight call therefore
touches the shared row in two steps, not in one atomic operation.
-/

/-- Progress of one in-flight `usage_incr(actor, by=1)` call: before its
SELECT, after its SELECT (holding the fetched row), or finished (holding
the `used` it returned). -/
inductive IncrPhase where
  | start
  | gotRow (r : Option Nat)
  | done (ret : Nat)
deriving Repr, DecidableEq

/-- The shared usage row of one fixed actor (`none` = row absent) plus
the states of the concurrent calls. -/
structure LedgerState where
  row : Option Nat
  threads : List IncrPhase
deriving Repr, DecidableEq

/-- One interleaving step: some call executes its next SQL statement.
`read` is the SELECT of line 323; `write` is the UPDATE of lines 329-332
(`used = row + 1`) or the INSERT of lines 335-338 (`used = 1`), storing
`r.getD 0 + 1` computed from that call's own earlier read. -/
inductive incrStep : LedgerState → LedgerState → Prop
  | read (s : LedgerState) (i : Nat)
      (h : s.threads.get? i = some IncrPhase.start) :
      incrStep s { s with threads := s.threads.set i (IncrPhase.gotRow s.row) }
  | write (s : LedgerState) (i : Nat) (r : Option Nat)
      (h : s.threads.get? i = some (IncrPhase.gotRow r)) :
      incrStep s { row := some (r.getD 0 + 1),
                   threads := s.threads.set i (IncrPhase.done (r.getD 0 + 1)) }

/-- The value a `write` step stores agrees with `usage_incr` executed
serially against a database holding exactly the row the step fetched. -/
theorem incr_write_matches_usage_incr (c : Option Nat) :
    c.getD 0 + 1 = (usage_incr
      { users := [],
        usage := match c with | some u => [(("guest", "g"), u)] | none => [] }
      "guest" "g" 1).1 := by
  cases c with
  | none => decide
  | some u => simp [usage_incr, usageLookup, List.find?]

/-- Claim C4 (code bug): interleaving two concurrent quota-check
increments for the same actor so that both SELECTs run before either
write is a valid execution of `usage_incr`'s storage protocol, and it
ends with both calls finished but `used = 1`, not 2 — the
read-increment-write spans two storage operations, so an increment is
lost. -/
theorem usage_incr_lost_update :
    Relation.ReflTransGen incrStep
      { row := none, threads := [IncrPhase.start, IncrPhase.start] }
      { row := some 1, threads := [IncrPhase.done 1, IncrPhase.done 1] } ∧
    ({ row := some 1, threads := [IncrPhase.done 1, IncrPhase.done 1] } :
      LedgerState).row ≠ some 2 := by
  constructor
  · have s1 := incrStep.read
      { row := none, threads := [IncrPhase.start, IncrPhase.start] } 0 rfl
    have s2 := incrStep.read
      { row := none, threads := [IncrPhase.gotRow none, IncrPhase.start] } 1 rfl
    have s3 := incrStep.write
      { row := none, threads := [IncrPhase.gotRow none, IncrPhase.gotRow none] } 0 none rfl
    have s4 := incrStep.write
      { row := some 1, threads := [IncrPhase.done 1, IncrPhase.gotRow none] } 1 none rfl
    exact Relation.ReflTransGen.head s1 (Relation.ReflTransGen.head s2
      (Relation.ReflTransGen.head s3 (Relation.ReflTransGen.single s4)))
  · decide
